import Mathlib

/-!
Verification model of the `meas_astrom` astrometric-calibration package.

Two Python modules are embedded:

* `python/lsst/meas/astrom/astrometry.py` — `AstrometryTask` with its
  iterative match-and-fit loop (`solve`, `_matchAndFitWcs`, `run`).
* `python/lsst/meas/astrom/astrom.py` — the legacy `Astrometry` class
  (`determineWcs2`, `_calculateSipTerms`, `_getMatchList`,
  `getReferenceSourcesForWcs`, `_trimBadPoints`).

External collaborators (the reference-object loader, the source/reference
matcher, the WCS fitter, the astrometry.net solver and the afw geometry
primitives) are not part of this repository; they enter the model as oracle
function parameters, or, for the afw `Box2D` rectangle, as a small concrete
definition whose containment convention follows the description in the
specification (inclusive bounds on both axes).

Numeric conventions: angular quantities produced by exact record fields are
rationals; quantities that the Python code derives with `math.hypot`,
`numpy.std` or `afwGeom.radToArcsec` (square roots, pi) live in `Real`.
-/

namespace MeasAstrom

variable {Wcs : Type}

/-- A reference-object/source match (`lsst.afw.table.ReferenceMatch`).
`firstId` is the identifier of `m.first` (the reference object), `secondId`
the identifier of `m.second` (the detected source), `distance` the angular
separation in radians. -/
structure Match where
  firstId : ℕ
  secondId : ℕ
  distance : ℚ

/-- An exposure as read and written by the tasks: bounding-box size, WCS,
optional calib, optional filter name, optional detector. -/
structure Exposure (Wcs : Type) where
  width : ℕ
  height : ℕ
  wcs : Option Wcs
  calib : Option ℕ
  filterName : Option String
  detector : Option ℕ

/- ## astrometry.py : AstrometryTask -/

/-- Result of one `_matchAndFitWcs` call (astrometry.py:324-328): the match
list, the fit (or passed-through) WCS, and the on-sky scatter, which is
`None` exactly when `forceKnownWcs` suppressed the fit. -/
structure TryRes (Wcs : Type) where
  matchList : List Match
  wcs : Wcs
  scatterOnSky : Option ℚ

/-- Result of the external WCS fitter subtask (`wcsFitter.fitWcs`). -/
structure FitRes (Wcs : Type) where
  wcs : Wcs
  scatterOnSky : ℚ

/-- The Python 2 comparison `tryRes.scatterOnSky >= res.scatterOnSky`
(astrometry.py:231) on possibly-`None` values: `None` sorts below every
angle and equals itself. Inside the loop both operands are in fact
non-`None`, because the comparison only runs when `forceKnownWcs` is false. -/
def scatterGE : Option ℚ → Option ℚ → Bool
  | some a, some b => decide (b ≤ a)
  | some _, none => true
  | none, some _ => false
  | none, none => true

/-- `numpy.mean` of a list of rationals (astrometry.py:243). -/
def listMean (l : List ℚ) : ℚ := l.sum / l.length

/-- The square of `numpy.std` (population variance, ddof = 0) of a list of
rationals (astrometry.py:243). -/
def listVar (l : List ℚ) : ℚ := (l.map (fun d => (d - listMean l) ^ 2)).sum / l.length

/-- `lsst.afw.geom.radToArcsec`: radians to arcseconds. -/
noncomputable def radToArcsec (x : ℝ) : ℝ := x * (180 * 3600 / Real.pi)

/-- The tolerance update of astrometry.py:242-243:
`maxMatchDistArcSec = radToArcsec(numpy.mean(distRadList) + 2.0*numpy.std(distRadList))`
over the distances of the just-accepted match list. -/
noncomputable def updatedMaxMatchDist (matchList : List Match) : ℝ :=
  radToArcsec ((listMean (matchList.map Match.distance) : ℝ) +
    2 * Real.sqrt ((listVar (matchList.map Match.distance) : ℝ)))

/-- `AstrometryTask._matchAndFitWcs` (astrometry.py:256-328). The matcher
subtask is the oracle `matcher wcs maxMatchDistArcSec`; when `forceKnownWcs`
is false the fitter oracle runs and supplies the fit WCS and scatter, and
when it is true the input WCS is passed through with scatter `None`
(astrometry.py:297-311). -/
def matchAndFitWcs (forceKnownWcs : Bool)
    (matcher : Wcs → Option ℝ → List Match)
    (wcsFitter : List Match → Wcs → FitRes Wcs)
    (wcs : Wcs) (maxMatchDistArcSec : Option ℝ) : TryRes Wcs :=
  let matchList := matcher wcs maxMatchDistArcSec
  if forceKnownWcs then
    { matchList := matchList, wcs := wcs, scatterOnSky := none }
  else
    let fitRes := wcsFitter matchList wcs
    { matchList := matchList, wcs := fitRes.wcs, scatterOnSky := some fitRes.scatterOnSky }

/-- Loop state of `AstrometryTask.solve` (astrometry.py:201-245): the
accepted result `res` (initially `None`), the current WCS, the current
match-distance tolerance (initially `None`). `tolTrace` records each value
assigned to `maxMatchDistArcSec` at astrometry.py:243, in order, and
`passes` counts `_matchAndFitWcs` invocations; both are observers that the
loop never reads. -/
structure SolveState (Wcs : Type) where
  res : Option (TryRes Wcs)
  wcs : Wcs
  maxMatchDistArcSec : Option ℝ
  tolTrace : List ℝ
  passes : ℕ

/-- The accept branch of the loop body (astrometry.py:237-243):
`res = tryRes; wcs = res.wcs; maxMatchDistArcSec = radToArcsec(mean + 2*std)`. -/
noncomputable def acceptIter (st : SolveState Wcs) (tryRes : TryRes Wcs) : SolveState Wcs :=
  { st with
    res := some tryRes
    wcs := tryRes.wcs
    maxMatchDistArcSec := some (updatedMaxMatchDist tryRes.matchList)
    tolTrace := st.tolTrace ++ [updatedMaxMatchDist tryRes.matchList] }

/-- The `for i in range(maxIter)` loop of `AstrometryTask.solve`
(astrometry.py:204-245), fuel = remaining iterations. Each pass computes
`tryRes`; under `forceKnownWcs` it stores it and breaks (astrometry.py:215-218).
Otherwise, once a previous result exists, the loop breaks keeping the
previous result when the new pass has strictly fewer matches
(astrometry.py:226-230), or equally many matches with scatter at least the
previous scatter (astrometry.py:231-235); in every other case the new
result is accepted and iteration continues. -/
noncomputable def solveLoop (forceKnownWcs : Bool)
    (matcher : Wcs → Option ℝ → List Match)
    (wcsFitter : List Match → Wcs → FitRes Wcs) :
    ℕ → SolveState Wcs → SolveState Wcs
  | 0, st => st
  | n + 1, st =>
    let tryRes := matchAndFitWcs forceKnownWcs matcher wcsFitter st.wcs st.maxMatchDistArcSec
    let st1 : SolveState Wcs := { st with passes := st.passes + 1 }
    if forceKnownWcs then { st1 with res := some tryRes }
    else
      match st.res with
      | some prev =>
        if tryRes.matchList.length < prev.matchList.length then st1
        else if tryRes.matchList.length = prev.matchList.length ∧
            scatterGE tryRes.scatterOnSky prev.scatterOnSky = true then st1
        else solveLoop forceKnownWcs matcher wcsFitter n (acceptIter st1 tryRes)
      | none => solveLoop forceKnownWcs matcher wcsFitter n (acceptIter st1 tryRes)

/-- The struct returned by `AstrometryTask.solve` (astrometry.py:247-254),
restricted to the fields the claims are about (`refCat` and `matchMeta` come
from oracles and are omitted). `initWcs` is returned as supplied. -/
structure SolveResult (Wcs : Type) where
  matchList : List Match
  initWcs : Wcs
  wcs : Wcs
  scatterOnSky : Option ℚ

/-- The loop state after `AstrometryTask.solve` has finished iterating,
starting from `res = None`, `wcs = initWcs`, `maxMatchDistArcSec = None`
(astrometry.py:201-203). -/
noncomputable def solveFinalState (forceKnownWcs : Bool)
    (matcher : Wcs → Option ℝ → List Match)
    (wcsFitter : List Match → Wcs → FitRes Wcs)
    (maxIter : ℕ) (initWcs : Wcs) : SolveState Wcs :=
  solveLoop forceKnownWcs matcher wcsFitter maxIter
    { res := none, wcs := initWcs, maxMatchDistArcSec := none, tolTrace := [], passes := 0 }

/-- `AstrometryTask.solve` (astrometry.py:162-254). The returned struct
reads `res.matchList`, `res.wcs`, `res.scatterOnSky` and echoes `initWcs`;
`none` models the attribute error that reading `res` would raise if the
loop never ran (the config forbids `maxIter < 1`). -/
noncomputable def solve (forceKnownWcs : Bool)
    (matcher : Wcs → Option ℝ → List Match)
    (wcsFitter : List Match → Wcs → FitRes Wcs)
    (maxIter : ℕ) (initWcs : Wcs) : Option (SolveResult Wcs) :=
  (solveFinalState forceKnownWcs matcher wcsFitter maxIter initWcs).res.map
    (fun r => { matchList := r.matchList, initWcs := initWcs, wcs := r.wcs,
                scatterOnSky := r.scatterOnSky })

/-- `AstrometryTask.run` (astrometry.py:136-160): read bbox/calib/filter
from the exposure, obtain the initial WCS through `getDistortedWcs` (an afw
utility, an oracle here), call `solve`, then `exposure.setWcs(retVal.wcs)`.
The returned exposure is the input with only its `wcs` field replaced. -/
noncomputable def run (forceKnownWcs : Bool) (maxIter : ℕ)
    (matcher : Wcs → Option ℝ → List Match)
    (wcsFitter : List Match → Wcs → FitRes Wcs)
    (getDistortedWcs : Exposure Wcs → Wcs)
    (exposure : Exposure Wcs) : Option (Exposure Wcs × SolveResult Wcs) :=
  let initWcs := getDistortedWcs exposure
  (solve forceKnownWcs matcher wcsFitter maxIter initWcs).map
    (fun r => ({ exposure with wcs := some r.wcs }, r))

/-- The stop condition of the regression guard in `AstrometryTask.solve`
(astrometry.py:226 and astrometry.py:231), as one predicate: strictly fewer
matches, or equally many matches with worse-or-equal scatter. -/
def stopCondition (tryRes prev : TryRes Wcs) : Prop :=
  tryRes.matchList.length < prev.matchList.length ∨
    (tryRes.matchList.length = prev.matchList.length ∧
      scatterGE tryRes.scatterOnSky prev.scatterOnSky = true)

instance (tryRes prev : TryRes Wcs) : Decidable (stopCondition tryRes prev) := by
  unfold stopCondition; infer_instance

/- ## astrom.py : legacy Astrometry class -/

/-- The errors that executions of the legacy `Astrometry` methods raise.
The first three are the `RuntimeError`s of astrom.py:126, astrom.py:130 and
astrom.py:145; `assertionError` is the failed `assert(pixelScale is not
None)` at astrom.py:160; `nameError` stands for a lookup of an undefined
Python name at runtime. -/
inductive AstromError where
  | radecCenterConflict
  | pixelScaleConflict
  | noImageSize
  | assertionError
  | nameError

/-- The WCS that `determineWcs2` works with after the argument-defaulting
block astrom.py:135-141: the explicit `wcs` argument, else the WCS of the
exposure when one was passed. -/
def effectiveWcs (wcs0 : Option Wcs) (exposure : Option (Exposure Wcs)) : Option Wcs :=
  match wcs0 with
  | some w => some w
  | none =>
    match exposure with
    | some e => e.wcs
    | none => none

/-- The filter name after the defaulting block astrom.py:135-137: the
explicit argument, else the filter name of the exposure when one was
passed. -/
def resolveFilterName (filterName0 : Option String)
    (exposure : Option (Exposure Wcs)) : Option String :=
  match filterName0 with
  | some f => some f
  | none =>
    match exposure with
    | some e => e.filterName
    | none => none

/-- The image size after the defaulting block astrom.py:135-139: the
explicit argument, else the exposure size when an exposure was passed. -/
def resolveImageSize (imageSize0 : Option (ℕ × ℕ))
    (exposure : Option (Exposure Wcs)) : Option (ℕ × ℕ) :=
  match imageSize0 with
  | some s => some s
  | none =>
    match exposure with
    | some e => some (e.width, e.height)
    | none => none

/-- The values that the validation and hint-resolution prefix of
`determineWcs2` (astrom.py:125-163) has computed when it completes without
raising. -/
structure ResolvedGeometry (Wcs : Type) where
  width : ℕ
  height : ℕ
  wcs : Option Wcs
  pixelScale : Option ℝ
  radecCenter : Option (ℚ × ℚ)
  searchRadius : Option ℝ
  filterName : Option String

/-- The prefix of `Astrometry.determineWcs2` (astrom.py:125-163): the two
mutually-exclusive-toggle checks, defaulting of filter name / image size /
WCS from the exposure, the image-size check, and resolution of pixel scale,
RA/Dec center and search radius from the WCS. `pixelScaleO` and
`pixelToSkyO` are the external afw WCS methods `pixelScale()` and
`pixelToSky()`. The search radius, when derived, is
`pixelScale * math.hypot(W, H)/2 * searchRadiusScale` (astrom.py:161-162),
guarded by `assert(pixelScale is not None)` (astrom.py:160). -/
noncomputable def resolveGeometry (pixelScaleO : Wcs → ℝ)
    (pixelToSkyO : Wcs → ℝ × ℝ → ℚ × ℚ)
    (exposure : Option (Exposure Wcs)) (wcs0 : Option Wcs)
    (imageSize0 : Option (ℕ × ℕ)) (radecCenter0 : Option (ℚ × ℚ))
    (searchRadius0 : Option ℝ) (pixelScale0 : Option ℝ)
    (filterName0 : Option String) (usePixelScale useRaDecCenter : Bool)
    (searchRadiusScale : ℝ) : Except AstromError (ResolvedGeometry Wcs) :=
  if !useRaDecCenter && radecCenter0.isSome then .error .radecCenterConflict
  else if !usePixelScale && pixelScale0.isSome then .error .pixelScaleConflict
  else
    let filterName : Option String := resolveFilterName filterName0 exposure
    match resolveImageSize imageSize0 exposure with
    | none => .error .noImageSize
    | some (W, H) =>
      let xc : ℝ := (W : ℝ) / 2 + 1 / 2
      let yc : ℝ := (H : ℝ) / 2 + 1 / 2
      match effectiveWcs wcs0 exposure with
      | none =>
        .ok { width := W, height := H, wcs := none, pixelScale := pixelScale0,
              radecCenter := radecCenter0, searchRadius := searchRadius0,
              filterName := filterName }
      | some w =>
        let pixelScale : Option ℝ :=
          match pixelScale0 with
          | some p => some p
          | none => if usePixelScale then some (pixelScaleO w) else none
        let radecCenter : Option (ℚ × ℚ) :=
          match radecCenter0 with
          | some c => some c
          | none => if useRaDecCenter then some (pixelToSkyO w (xc, yc)) else none
        if searchRadius0.isNone && useRaDecCenter then
          match pixelScale with
          | none => .error .assertionError
          | some ps =>
            .ok { width := W, height := H, wcs := some w, pixelScale := some ps,
                  radecCenter := radecCenter,
                  searchRadius :=
                    some (ps * Real.sqrt ((W : ℝ) ^ 2 + (H : ℝ) ^ 2) / 2
                      * searchRadiusScale),
                  filterName := filterName }
        else
          .ok { width := W, height := H, wcs := some w, pixelScale := pixelScale,
                radecCenter := radecCenter, searchRadius := searchRadius0,
                filterName := filterName }

/-- The search radius carried by a successful `resolveGeometry` outcome. -/
def searchRadiusOf : Except AstromError (ResolvedGeometry Wcs) → Option ℝ
  | .ok r => r.searchRadius
  | .error _ => none

/-- Return object of `determineWcs2` (astrom.py:17-26): both fields start
out `None` and stay `None` on the no-match early return. -/
structure InitialAstrometry (Wcs : Type) where
  wcs : Option Wcs := none
  matchList : Option (List Match) := none

/-- `Astrometry.determineWcs2` (astrom.py:93-223). After the validation and
hint-resolution prefix (`resolveGeometry`), the function as written cannot
proceed: with `doTrim` it reads the bare name `_trimBadPoints`
(astrom.py:172), which is not defined in the enclosing scopes (it is a
static method attribute), raising NameError; otherwise it runs the external
solver (astrom.py:181, irrelevant to the outcome) and then calls
`self.getReferenceSourcesForWcs(self, wcs, imageSize, filterName,
pixelMargin)` (astrom.py:183) — note the stray `self` shifting every
argument by one slot — whose first statement `rdc = wcs.pixelToSky(xc, yc)`
(astrom.py:277) reads the names `xc`, `yc` that are locals of
`determineWcs2`, not of `getReferenceSourcesForWcs`, raising NameError.
Every execution that passes validation therefore raises NameError before a
match list is ever built, so the no-match handling of astrom.py:186-194 and
everything after it is unreachable. -/
noncomputable def determineWcs2 (pixelScaleO : Wcs → ℝ)
    (pixelToSkyO : Wcs → ℝ × ℝ → ℚ × ℚ)
    (exposure : Option (Exposure Wcs)) (wcs0 : Option Wcs)
    (imageSize0 : Option (ℕ × ℕ)) (radecCenter0 : Option (ℚ × ℚ))
    (searchRadius0 : Option ℝ) (pixelScale0 : Option ℝ)
    (filterName0 : Option String) (doTrim usePixelScale useRaDecCenter : Bool)
    (searchRadiusScale : ℝ) : Except AstromError (InitialAstrometry Wcs) :=
  match resolveGeometry pixelScaleO pixelToSkyO exposure wcs0 imageSize0 radecCenter0
      searchRadius0 pixelScale0 filterName0 usePixelScale useRaDecCenter
      searchRadiusScale with
  | .error e => .error e
  | .ok _ =>
    if doTrim then
      .error .nameError
    else
      .error .nameError

/-- The duplicate-identifier check of `determineWcs2` (astrom.py:188-191):
`uniq = set([sm.second.getId() for sm in matchList])` followed by the
warning when `len(matchList) != len(uniq)`. Note that it collects the
identifiers of `m.second` — the matched detected sources — not of the
reference objects `m.first`. -/
def duplicateIdWarning (matchList : List Match) : Bool :=
  matchList.length != (matchList.map Match.secondId).dedup.length

/-- The exceptions that executions of `_calculateSipTerms` raise.
`attributeError` is the lookup `self.cleaningParameter` inside
`_getMatchList` (astrom.py:261): no code in the class ever assigns that
attribute. `nameError` is a lookup of an undefined module-level name. -/
inductive SipError where
  | attributeError
  | nameError

/-- `Astrometry._getMatchList` (astrom.py:259-267) as the repository
defines it. Line 260 reads only the config; line 261 then reads
`self.cleaningParameter`, an attribute never assigned anywhere in the
class, so every call raises AttributeError there — before the `sources`,
`cat` or `wcs` arguments are touched. (Line 262 would in addition read the
undefined name `img`; the no-match `RuntimeError` of astrom.py:264-265 and
the cleaning step are unreachable.) Because the failure precedes every use
of `sources` and `cat`, only the WCS argument is kept in the model. -/
def getMatchList (_wcs : Wcs) : Except SipError (List Match) :=
  .error .attributeError

/-- Outcome of `Astrometry._calculateSipTerms` (astrom.py:229-256). `ok`
carries the WCS and match list returned at astrom.py:256; `raised e` is an
exception propagating uncaught out of the loop; `running` marks fuel
exhaustion with the `while True` loop still iterating (the loop itself has
no iteration bound). -/
inductive SipResult (Wcs : Type) where
  | ok (wcs : Wcs) (matchList : List Match) : SipResult Wcs
  | raised (e : SipError) : SipResult Wcs
  | running : SipResult Wcs

/-- `Astrometry._calculateSipTerms` (astrom.py:229-256), fuel-indexed.
`createWcsWithSip` is the external `astromSip.CreateWcsWithSip` fit; when
it raises (`none`), the handler `except LsstCppException, e:`
(astrom.py:239) evaluates the undefined name `LsstCppException`, raising
NameError. The re-match at astrom.py:247 calls `self._getMatchList` — the
repository method, modelled by `getMatchList` above, which always raises
AttributeError, propagating uncaught. The regression guard at
astrom.py:248-250 (break when the proposed match list is not strictly
larger, keeping the current WCS and match list) and the adopt-and-iterate
branch are translated from the source but sit unreachably behind that
re-match. -/
def calculateSipTerms (createWcsWithSip : List Match → Wcs → Option Wcs) :
    ℕ → Wcs → List Match → SipResult Wcs
  | 0, _, _ => .running
  | n + 1, wcs, matchList =>
    match createWcsWithSip matchList wcs with
    | none => .raised .nameError
    | some proposedWcs =>
      match getMatchList proposedWcs with
      | .error e => .raised e
      | .ok proposedMatchlist =>
        if proposedMatchlist.length ≤ matchList.length then .ok wcs matchList
        else calculateSipTerms createWcsWithSip n proposedWcs proposedMatchlist

/-- A reference source as trimmed by `_trimBadPoints`: an identifier and
the projected pixel position read through `getXAstrom()` / `getYAstrom()`
(astrom.py:483). -/
structure RefSource where
  id : ℕ
  xAstrom : ℚ
  yAstrom : ℚ

/-- The afw `Box2D` floating-point rectangle (external to this repository).
Containment is taken inclusive at both bounds, matching the trim box
`[-margin, W+margin] x [-margin, H+margin]` described by the specification. -/
structure Box2D where
  minX : ℚ
  minY : ℚ
  maxX : ℚ
  maxY : ℚ

/-- `Box2D.contains` for a point given by its two coordinates. -/
def Box2D.containsPt (b : Box2D) (x y : ℚ) : Bool :=
  decide (b.minX ≤ x) && decide (x ≤ b.maxX) &&
    decide (b.minY ≤ y) && decide (y ≤ b.maxY)

/-- `Box2D.grow`: move every edge outward by `m`. -/
def Box2D.grow (b : Box2D) (m : ℚ) : Box2D :=
  { minX := b.minX - m, minY := b.minY - m, maxX := b.maxX + m, maxY := b.maxY + m }

/-- `Astrometry._trimBadPoints` (astrom.py:471-485): keep exactly the
sources whose `(xAstrom, yAstrom)` position the box contains. -/
def trimBadPoints (sources : List RefSource) (bbox : Box2D) : List RefSource :=
  sources.filter (fun s => bbox.containsPt s.xAstrom s.yAstrom)

/-- The trim box built at astrom.py:287-288 inside
`getReferenceSourcesForWcs`: `Box2D(Point2D(0,0), Point2D(W,H))` grown by
`pixelMargin`. -/
def trimBox (W H margin : ℚ) : Box2D :=
  Box2D.grow { minX := 0, minY := 0, maxX := W, maxY := H } margin

/- ## Concrete fixtures used by counterexamples and witnesses -/

/-- A concrete pixel-scale oracle over natural-number WCS handles: one
arcsecond-per-pixel everywhere. -/
def cPixelScaleO : ℕ → ℝ := fun _ => 1

/-- A concrete pixel-to-sky oracle over natural-number WCS handles. -/
def cPixelToSkyO : ℕ → ℝ × ℝ → ℚ × ℚ := fun _ _ => (0, 0)

/-- A previously accepted iteration result with one match. -/
def w1Prev : TryRes ℕ := { matchList := [⟨0, 0, 0⟩], wcs := 0, scatterOnSky := some 0 }

/-- A mid-loop state that has accepted `w1Prev`. -/
def w1St : SolveState ℕ :=
  { res := some w1Prev, wcs := 0, maxMatchDistArcSec := none, tolTrace := [], passes := 1 }

/-- A matcher oracle that finds no matches. -/
def w1Matcher : ℕ → Option ℝ → List Match := fun _ _ => []

/-- A fitter oracle returning a fixed WCS and scatter. -/
def w1Fitter : List Match → ℕ → FitRes ℕ := fun _ _ => { wcs := 0, scatterOnSky := 0 }

/-- First-pass match list of the tolerance counterexample: two matches at
distances 0 and 1 radian, so mean 1/2, std 1/2, tolerance mean+2std = 3/2. -/
def c4m1 : List Match := [⟨0, 0, 0⟩, ⟨0, 1, 1⟩]

/-- Second-pass match list: four matches at distances 0, 0, 3/2, 3/2 — all
within the previous tolerance of 3/2 radians — with mean 3/4, std 3/4, so
the updated tolerance mean+2std = 9/4 is larger than the previous one. -/
def c4m2 : List Match := [⟨0, 0, 0⟩, ⟨0, 1, 0⟩, ⟨0, 2, 3/2⟩, ⟨0, 3, 3/2⟩]

/-- Matcher oracle of the tolerance counterexample: `c4m1` on the first
pass (no tolerance yet), `c4m2` once a tolerance is set. -/
def c4Matcher : ℕ → Option ℝ → List Match
  | _, none => c4m1
  | _, some _ => c4m2

/-- Fitter oracle of the tolerance counterexample. -/
def c4Fitter : List Match → ℕ → FitRes ℕ := fun _ _ => { wcs := 0, scatterOnSky := 0 }

/-- A fresh loop state (before any pass) used by the tolerance-update
witness. -/
def w4St : SolveState ℕ :=
  { res := none, wcs := 0, maxMatchDistArcSec := none, tolTrace := [], passes := 0 }

/-- Matcher oracle used by the tolerance-update witness. -/
def w4Matcher : ℕ → Option ℝ → List Match := fun _ _ => []

/-- Fitter oracle used by the tolerance-update witness. -/
def w4Fitter : List Match → ℕ → FitRes ℕ := fun _ _ => { wcs := 0, scatterOnSky := 0 }

/-- Matcher oracle of the forced-WCS witness. -/
def w3Matcher : ℕ → Option ℝ → List Match := fun _ _ => [⟨1, 2, 0⟩]

/-- First fitter oracle of the forced-WCS witness. -/
def w3Fitter : List Match → ℕ → FitRes ℕ := fun _ _ => { wcs := 11, scatterOnSky := 1 }

/-- Second, different fitter oracle of the forced-WCS witness. -/
def w3FitterB : List Match → ℕ → FitRes ℕ := fun _ _ => { wcs := 22, scatterOnSky := 2 }

/-- Matcher oracle of the frame-effect witness. -/
def w10Matcher : ℕ → Option ℝ → List Match := fun _ _ => []

/-- Fitter oracle of the frame-effect witness. -/
def w10Fitter : List Match → ℕ → FitRes ℕ := fun _ _ => { wcs := 7, scatterOnSky := 0 }

/-- Distorted-WCS oracle of the frame-effect witness. -/
def w10Gdw : Exposure ℕ → ℕ := fun _ => 9

/-- Input exposure of the frame-effect witness. -/
def w10Exp : Exposure ℕ :=
  { width := 10, height := 20, wcs := some 3, calib := some 4,
    filterName := none, detector := some 6 }

/-- The exposure after `run`: only the WCS replaced. -/
def w10ExpOut : Exposure ℕ := { w10Exp with wcs := some 7 }

/-- The solve result of the frame-effect witness. -/
def w10Res : SolveResult ℕ :=
  { matchList := [], initWcs := 9, wcs := 7, scatterOnSky := some 0 }

/- ## Theorems -/

/-- C1: in `AstrometryTask.solve` with `forceKnownWcs` false, on every
iteration that already holds a previously accepted result, the loop stops —
leaving the previously accepted result in place to be returned — exactly
when the new pass has strictly fewer matches than the previous one, or an
equal number of matches with scatter greater than or equal to the previous
scatter; in every other case the new result replaces the previous one
(updating the WCS and the match-distance tolerance) and iteration continues
with the remaining fuel. -/
theorem solveLoop_regression_guard (matcher : Wcs → Option ℝ → List Match)
    (wcsFitter : List Match → Wcs → FitRes Wcs) (n : ℕ) (st : SolveState Wcs)
    (prev : TryRes Wcs) (hres : st.res = some prev) :
    (stopCondition (matchAndFitWcs false matcher wcsFitter st.wcs st.maxMatchDistArcSec)
        prev →
      solveLoop false matcher wcsFitter (n + 1) st = { st with passes := st.passes + 1 })
    ∧ (¬ stopCondition (matchAndFitWcs false matcher wcsFitter st.wcs st.maxMatchDistArcSec)
        prev →
      solveLoop false matcher wcsFitter (n + 1) st
        = solveLoop false matcher wcsFitter n
            (acceptIter { st with passes := st.passes + 1 }
              (matchAndFitWcs false matcher wcsFitter st.wcs st.maxMatchDistArcSec))) := by
  obtain ⟨res, wcs0, md, tt, ps⟩ := st
  obtain rfl : res = some prev := hres
  have hunf : solveLoop false matcher wcsFitter (n + 1)
      ⟨some prev, wcs0, md, tt, ps⟩
      = (if (matchAndFitWcs false matcher wcsFitter wcs0 md).matchList.length
            < prev.matchList.length then
          ({ res := some prev, wcs := wcs0, maxMatchDistArcSec := md, tolTrace := tt,
             passes := ps + 1 } : SolveState Wcs)
        else if (matchAndFitWcs false matcher wcsFitter wcs0 md).matchList.length
              = prev.matchList.length ∧
            scatterGE (matchAndFitWcs false matcher wcsFitter wcs0 md).scatterOnSky
              prev.scatterOnSky = true then
          { res := some prev, wcs := wcs0, maxMatchDistArcSec := md, tolTrace := tt,
            passes := ps + 1 }
        else
          solveLoop false matcher wcsFitter n
            (acceptIter
              { res := some prev, wcs := wcs0, maxMatchDistArcSec := md, tolTrace := tt,
                passes := ps + 1 }
              (matchAndFitWcs false matcher wcsFitter wcs0 md))) := rfl
  constructor
  · intro hstop
    unfold stopCondition at hstop
    rw [hunf]
    rcases hstop with h | h
    · rw [if_pos h]
    · rw [if_neg (by rw [h.1]; exact lt_irrefl _), if_pos h]
  · intro hstop
    unfold stopCondition at hstop
    rw [hunf]
    rw [if_neg (fun hA => hstop (Or.inl hA)), if_neg (fun hB => hstop (Or.inr hB))]

/-- Witness for C1 at a concrete mid-loop state with one previously
accepted match. -/
theorem solveLoop_regression_guard_witness :
    w1St.res = some w1Prev
    ∧ ((stopCondition (matchAndFitWcs false w1Matcher w1Fitter w1St.wcs
            w1St.maxMatchDistArcSec) w1Prev →
          solveLoop false w1Matcher w1Fitter (0 + 1) w1St
            = { w1St with passes := w1St.passes + 1 })
      ∧ (¬ stopCondition (matchAndFitWcs false w1Matcher w1Fitter w1St.wcs
            w1St.maxMatchDistArcSec) w1Prev →
          solveLoop false w1Matcher w1Fitter (0 + 1) w1St
            = solveLoop false w1Matcher w1Fitter 0
                (acceptIter { w1St with passes := w1St.passes + 1 }
                  (matchAndFitWcs false w1Matcher w1Fitter w1St.wcs
                    w1St.maxMatchDistArcSec)))) :=
  ⟨rfl, solveLoop_regression_guard w1Matcher w1Fitter 0 w1St w1Prev rfl⟩

/-- C3: with `forceKnownWcs` set and a config-legal iteration count
(`maxIter >= 1`), `AstrometryTask.solve` performs exactly one
match-and-fit pass, returns the supplied initial WCS as the fit WCS and an
absent (`None`) scatter, and its outcome does not depend on the WCS fitter
at all (no refinement is performed). -/
theorem solve_forceKnownWcs (matcher : Wcs → Option ℝ → List Match)
    (wcsFitter wcsFitterB : List Match → Wcs → FitRes Wcs) (maxIter : ℕ)
    (initWcs : Wcs) (h : 1 ≤ maxIter) :
    solve true matcher wcsFitter maxIter initWcs
        = some { matchList := matcher initWcs none, initWcs := initWcs,
                 wcs := initWcs, scatterOnSky := none }
      ∧ (solveFinalState true matcher wcsFitter maxIter initWcs).passes = 1
      ∧ solve true matcher wcsFitter maxIter initWcs
          = solve true matcher wcsFitterB maxIter initWcs := by
  obtain ⟨n, rfl⟩ : ∃ n, maxIter = n + 1 := ⟨maxIter - 1, by omega⟩
  exact ⟨rfl, rfl, rfl⟩

/-- Witness for C3 with the default `maxIter = 3` and two different fitter
oracles. -/
theorem solve_forceKnownWcs_witness :
    1 ≤ 3
    ∧ (solve true w3Matcher w3Fitter 3 5
          = some { matchList := w3Matcher 5 none, initWcs := 5, wcs := 5,
                   scatterOnSky := none }
      ∧ (solveFinalState true w3Matcher w3Fitter 3 5).passes = 1
      ∧ solve true w3Matcher w3Fitter 3 5 = solve true w3Matcher w3FitterB 3 5) :=
  ⟨by norm_num, solve_forceKnownWcs w3Matcher w3Fitter w3FitterB 3 5 (by norm_num)⟩

/-- C10: whenever `AstrometryTask.run` returns, the only difference between
the returned exposure and the input exposure is that its WCS has been set
to the fit WCS of the returned struct (bounding box, calib, filter name and
detector are untouched), and the `initWcs` field of the returned struct is
the initial WCS obtained from the exposure, unchanged by the solve. -/
theorem run_frame_effect (forceKnownWcs : Bool) (maxIter : ℕ)
    (matcher : Wcs → Option ℝ → List Match)
    (wcsFitter : List Match → Wcs → FitRes Wcs)
    (getDistortedWcs : Exposure Wcs → Wcs) (e eOut : Exposure Wcs)
    (r : SolveResult Wcs)
    (h : run forceKnownWcs maxIter matcher wcsFitter getDistortedWcs e
      = some (eOut, r)) :
    eOut.wcs = some r.wcs ∧ eOut.width = e.width ∧ eOut.height = e.height
      ∧ eOut.calib = e.calib ∧ eOut.filterName = e.filterName
      ∧ eOut.detector = e.detector ∧ r.initWcs = getDistortedWcs e := by
  simp only [run, solve] at h
  rcases hres : (solveFinalState forceKnownWcs matcher wcsFitter maxIter
      (getDistortedWcs e)).res with _ | tr
  · rw [hres] at h
    simp at h
  · rw [hres] at h
    simp only [Option.map_some'] at h
    injection h with h
    injection h with h1 h2
    subst h1
    subst h2
    exact ⟨rfl, rfl, rfl, rfl, rfl, rfl, rfl⟩

/-- Witness for C10 at a concrete exposure and oracle set. -/
theorem run_frame_effect_witness :
    run false 1 w10Matcher w10Fitter w10Gdw w10Exp = some (w10ExpOut, w10Res)
    ∧ (w10ExpOut.wcs = some w10Res.wcs ∧ w10ExpOut.width = w10Exp.width
      ∧ w10ExpOut.height = w10Exp.height ∧ w10ExpOut.calib = w10Exp.calib
      ∧ w10ExpOut.filterName = w10Exp.filterName
      ∧ w10ExpOut.detector = w10Exp.detector
      ∧ w10Res.initWcs = w10Gdw w10Exp) :=
  ⟨rfl, run_frame_effect false 1 w10Matcher w10Fitter w10Gdw w10Exp w10ExpOut w10Res rfl⟩

/-- The tolerance the loop computes from the first-pass match list of the
tolerance counterexample: distances 0 and 1 give mean 1/2 and standard
deviation 1/2, hence `radToArcsec(3/2)`. -/
theorem c4_tol1 : updatedMaxMatchDist c4m1 = radToArcsec (3/2) := by
  have h1 : c4m1.map Match.distance = [0, 1] := rfl
  rw [updatedMaxMatchDist, h1]
  have hm : listMean [(0 : ℚ), 1] = 1/2 := by
    norm_num [listMean, List.sum_cons, List.sum_nil]
  have hv : listVar [(0 : ℚ), 1] = 1/4 := by
    norm_num [listVar, listMean, List.sum_cons, List.sum_nil]
  rw [hm, hv]
  have hs : Real.sqrt (((1/4 : ℚ) : ℝ)) = 1/2 := by
    rw [show ((1/4 : ℚ) : ℝ) = (1/2 : ℝ) ^ 2 by norm_num]
    exact Real.sqrt_sq (by norm_num)
  rw [hs]
  norm_num

/-- The tolerance the loop computes from the second-pass match list of the
tolerance counterexample: distances 0, 0, 3/2, 3/2 give mean 3/4 and
standard deviation 3/4, hence `radToArcsec(9/4)`. -/
theorem c4_tol2 : updatedMaxMatchDist c4m2 = radToArcsec (9/4) := by
  have h1 : c4m2.map Match.distance = [0, 0, 3/2, 3/2] := rfl
  rw [updatedMaxMatchDist, h1]
  have hm : listMean [(0 : ℚ), 0, 3/2, 3/2] = 3/4 := by
    norm_num [listMean, List.sum_cons, List.sum_nil]
  have hv : listVar [(0 : ℚ), 0, 3/2, 3/2] = 9/16 := by
    norm_num [listVar, listMean, List.sum_cons, List.sum_nil]
  rw [hm, hv]
  have hs : Real.sqrt (((9/16 : ℚ) : ℝ)) = 3/4 := by
    rw [show ((9/16 : ℚ) : ℝ) = (3/4 : ℝ) ^ 2 by norm_num]
    exact Real.sqrt_sq (by norm_num)
  rw [hs]
  norm_num

/-- C4 counterexample: a two-iteration run of the `AstrometryTask.solve`
loop (forceKnownWcs false) in which both passes are accepted, every match
distance of the second pass lies within the first tolerance, and yet the
second accepted tolerance `radToArcsec(9/4)` is strictly larger than the
first `radToArcsec(3/2)` — the accepted-tolerance sequence is not
non-increasing, because `mean + 2*std` of a distance sample can exceed the
sample maximum. -/
theorem solve_tolerance_not_monotone :
    (solveFinalState false c4Matcher c4Fitter 2 0).tolTrace
        = [radToArcsec (3/2), radToArcsec (9/4)]
      ∧ radToArcsec (3/2) < radToArcsec (9/4) := by
  constructor
  · have h : (solveFinalState false c4Matcher c4Fitter 2 0).tolTrace
        = [updatedMaxMatchDist c4m1, updatedMaxMatchDist c4m2] := rfl
    rw [h, c4_tol1, c4_tol2]
  · unfold radToArcsec
    exact mul_lt_mul_of_pos_right (by norm_num) (by positivity)

/-- C4 (amended): in the `AstrometryTask.solve` loop with `forceKnownWcs`
false, whenever a pass is accepted (first pass, or regression guard not
triggered), the match-distance tolerance for the next pass is set to
`radToArcsec(mean + 2*std)` of the accepted match distances, and that value
is appended to the tolerance trace; no ordering between successive
tolerances is implied. -/
theorem solveLoop_tolerance_update (matcher : Wcs → Option ℝ → List Match)
    (wcsFitter : List Match → Wcs → FitRes Wcs) (n : ℕ) (st : SolveState Wcs)
    (h : ∀ prev, st.res = some prev →
      ¬ stopCondition (matchAndFitWcs false matcher wcsFitter st.wcs
          st.maxMatchDistArcSec) prev) :
    solveLoop false matcher wcsFitter (n + 1) st
      = solveLoop false matcher wcsFitter n
          { res := some (matchAndFitWcs false matcher wcsFitter st.wcs
              st.maxMatchDistArcSec),
            wcs := (matchAndFitWcs false matcher wcsFitter st.wcs
              st.maxMatchDistArcSec).wcs,
            maxMatchDistArcSec := some (updatedMaxMatchDist
              (matchAndFitWcs false matcher wcsFitter st.wcs
                st.maxMatchDistArcSec).matchList),
            tolTrace := st.tolTrace ++ [updatedMaxMatchDist
              (matchAndFitWcs false matcher wcsFitter st.wcs
                st.maxMatchDistArcSec).matchList],
            passes := st.passes + 1 } := by
  obtain ⟨res, wcs0, md, tt, ps⟩ := st
  rcases res with _ | prev
  · rfl
  · have hs := h prev rfl
    unfold stopCondition at hs
    have hunf : solveLoop false matcher wcsFitter (n + 1)
        ⟨some prev, wcs0, md, tt, ps⟩
        = (if (matchAndFitWcs false matcher wcsFitter wcs0 md).matchList.length
              < prev.matchList.length then
            ({ res := some prev, wcs := wcs0, maxMatchDistArcSec := md, tolTrace := tt,
               passes := ps + 1 } : SolveState Wcs)
          else if (matchAndFitWcs false matcher wcsFitter wcs0 md).matchList.length
                = prev.matchList.length ∧
              scatterGE (matchAndFitWcs false matcher wcsFitter wcs0 md).scatterOnSky
                prev.scatterOnSky = true then
            { res := some prev, wcs := wcs0, maxMatchDistArcSec := md, tolTrace := tt,
              passes := ps + 1 }
          else
            solveLoop false matcher wcsFitter n
              (acceptIter
                { res := some prev, wcs := wcs0, maxMatchDistArcSec := md,
                  tolTrace := tt, passes := ps + 1 }
                (matchAndFitWcs false matcher wcsFitter wcs0 md))) := rfl
    rw [hunf, if_neg (fun hA => hs (Or.inl hA)), if_neg (fun hB => hs (Or.inr hB))]
    rfl

/-- Witness for the C4 amended theorem at a fresh (first-pass) state. -/
theorem solveLoop_tolerance_update_witness :
    (∀ prev, w4St.res = some prev →
      ¬ stopCondition (matchAndFitWcs false w4Matcher w4Fitter w4St.wcs
          w4St.maxMatchDistArcSec) prev)
    ∧ solveLoop false w4Matcher w4Fitter (0 + 1) w4St
        = solveLoop false w4Matcher w4Fitter 0
            { res := some (matchAndFitWcs false w4Matcher w4Fitter w4St.wcs
                w4St.maxMatchDistArcSec),
              wcs := (matchAndFitWcs false w4Matcher w4Fitter w4St.wcs
                w4St.maxMatchDistArcSec).wcs,
              maxMatchDistArcSec := some (updatedMaxMatchDist
                (matchAndFitWcs false w4Matcher w4Fitter w4St.wcs
                  w4St.maxMatchDistArcSec).matchList),
              tolTrace := w4St.tolTrace ++ [updatedMaxMatchDist
                (matchAndFitWcs false w4Matcher w4Fitter w4St.wcs
                  w4St.maxMatchDistArcSec).matchList],
              passes := w4St.passes + 1 } :=
  ⟨fun _ hp => Option.noConfusion hp,
    solveLoop_tolerance_update w4Matcher w4Fitter 0 w4St
      (fun _ hp => Option.noConfusion hp)⟩

/-- C2: every run of the `_calculateSipTerms` loop body raises on its very
first iteration: NameError when the SIP fit fails (the handler evaluates
the undefined name `LsstCppException`, astrom.py:239), and otherwise
AttributeError from the first re-match (`_getMatchList` reads the
never-assigned `self.cleaningParameter`, astrom.py:261). In particular no
execution ever returns a WCS and match list through the regression guard
at astrom.py:248-256, and no iteration cap is involved — the loop is
`while True` and cannot even complete one pass. -/
theorem calculateSipTerms_first_rematch_raises
    (createWcsWithSip : List Match → Wcs → Option Wcs) (n : ℕ) (wcs : Wcs)
    (matchList : List Match) :
    (calculateSipTerms createWcsWithSip (n + 1) wcs matchList
        = .raised .nameError
      ∨ calculateSipTerms createWcsWithSip (n + 1) wcs matchList
        = .raised .attributeError)
    ∧ ∀ w ml, calculateSipTerms createWcsWithSip (n + 1) wcs matchList
        ≠ .ok w ml := by
  have hunf : calculateSipTerms createWcsWithSip (n + 1) wcs matchList
      = (match createWcsWithSip matchList wcs with
        | none => SipResult.raised .nameError
        | some proposedWcs =>
          match getMatchList proposedWcs with
          | .error e => SipResult.raised e
          | .ok proposedMatchlist =>
            if proposedMatchlist.length ≤ matchList.length then
              SipResult.ok wcs matchList
            else calculateSipTerms createWcsWithSip n proposedWcs
              proposedMatchlist) := rfl
  rw [hunf]
  rcases createWcsWithSip matchList wcs with _ | pw
  · exact ⟨Or.inl rfl, fun w ml h => nomatch h⟩
  · exact ⟨Or.inr rfl, fun w ml h => nomatch h⟩

/-- C5: evaluation of `determineWcs2` at a concrete argument set that
passes all validation (image size supplied, no hints, default flags): the
call raises NameError — `getReferenceSourcesForWcs` reads the undefined
names `xc`, `yc` (astrom.py:277), and the call site astrom.py:183 also
passes `self` in the `wcs` slot — so the function never reaches the match
step and never returns the empty result object that the claim describes
for the zero-surviving-matches case. -/
theorem determineWcs2_nameError :
    (∃ r, resolveGeometry cPixelScaleO cPixelToSkyO none none
        (some (4, 3)) none none none none true true 2 = .ok r)
    ∧ determineWcs2 cPixelScaleO cPixelToSkyO none none
        (some (4, 3)) none none none none false true true 2
      = .error .nameError :=
  ⟨⟨_, rfl⟩, rfl⟩

/-- C6 counterexample: a concrete call with no center hint, no pixel-scale
hint and a supplied image size — none of the three error conditions of the
claim — on which the validation prefix of `determineWcs2` still raises: a
WCS is available, `useRaDecCenter` is on, no search radius was supplied,
and `usePixelScale` is off with no pixel-scale hint, so the
`assert(pixelScale is not None)` at astrom.py:160 fails. -/
theorem resolveGeometry_config_counterexample :
    resolveGeometry cPixelScaleO cPixelToSkyO none (some 0)
        (some (4, 3)) none none none none false true 2 = .error .assertionError
    ∧ ¬((true = false ∧ (none : Option (ℚ × ℚ)).isSome = true)
        ∨ (false = false ∧ (none : Option ℝ).isSome = true)
        ∨ ((some ((4, 3) : ℕ × ℕ)) = none ∧ (none : Option (Exposure ℕ)) = none)) := by
  refine ⟨rfl, ?_⟩
  simp

/-- C6 (amended): the validation/resolution prefix of `determineWcs2`
raises if and only if: a center hint is supplied while `useRaDecCenter` is
disabled, or a pixel-scale hint is supplied while `usePixelScale` is
disabled, or the image size is resolvable from neither argument, or — the
case the claim misses — a WCS is available, `useRaDecCenter` is enabled, no
search radius is supplied, and no pixel scale is available
(`usePixelScale` disabled and no hint), which fails the assertion guarding
the search-radius derivation. All of these fire before any reference
loading or solving. -/
theorem resolveGeometry_error_iff (pixelScaleO : Wcs → ℝ)
    (pixelToSkyO : Wcs → ℝ × ℝ → ℚ × ℚ) (exposure : Option (Exposure Wcs))
    (wcs0 : Option Wcs) (imageSize0 : Option (ℕ × ℕ))
    (radecCenter0 : Option (ℚ × ℚ)) (searchRadius0 : Option ℝ)
    (pixelScale0 : Option ℝ) (filterName0 : Option String)
    (usePixelScale useRaDecCenter : Bool) (srScale : ℝ) :
    (∃ e, resolveGeometry pixelScaleO pixelToSkyO exposure wcs0 imageSize0
        radecCenter0 searchRadius0 pixelScale0 filterName0 usePixelScale
        useRaDecCenter srScale = .error e)
    ↔ ((useRaDecCenter = false ∧ radecCenter0.isSome = true)
      ∨ (usePixelScale = false ∧ pixelScale0.isSome = true)
      ∨ (imageSize0 = none ∧ exposure = none)
      ∨ ((effectiveWcs wcs0 exposure).isSome = true ∧ searchRadius0 = none
          ∧ useRaDecCenter = true ∧ pixelScale0 = none ∧ usePixelScale = false)) := by
  rcases useRaDecCenter <;> rcases usePixelScale <;>
    rcases radecCenter0 with _ | rc <;> rcases pixelScale0 with _ | psv <;>
    rcases searchRadius0 with _ | sr <;> rcases imageSize0 with _ | ⟨W, H⟩ <;>
    rcases exposure with _ | ⟨ew, eh, _ | ewcs, ecal, efil, edet⟩ <;>
    rcases wcs0 with _ | w <;>
    simp [resolveGeometry, effectiveWcs, resolveImageSize, resolveFilterName]

/-- C7 counterexample: with image size (3, 4), pixel scale 1 and the
default scale factor 2, the derived search radius is
`1 * hypot(3,4)/2 * 2 = 5` (astrom.py:161-162), not
`pixel scale * diagonal * factor = 1 * 5 * 2 = 10` as the claim states —
the code uses half the diagonal. -/
theorem resolveGeometry_radius_counterexample :
    searchRadiusOf (resolveGeometry cPixelScaleO cPixelToSkyO none
        (some 0) (some (3, 4)) none none none none true true 2) = some (5 : ℝ)
    ∧ (1 : ℝ) * Real.sqrt ((3 : ℝ) ^ 2 + (4 : ℝ) ^ 2) * 2 = 10
    ∧ (5 : ℝ) ≠ 10 := by
  have h25 : Real.sqrt ((3 : ℝ) ^ 2 + (4 : ℝ) ^ 2) = 5 := by
    rw [show (3 : ℝ) ^ 2 + (4 : ℝ) ^ 2 = (5 : ℝ) ^ 2 by norm_num]
    exact Real.sqrt_sq (by norm_num)
  refine ⟨?_, by rw [h25]; norm_num, by norm_num⟩
  have hred : searchRadiusOf (resolveGeometry cPixelScaleO
      cPixelToSkyO none (some 0) (some (3, 4)) none none none none true true 2)
      = some ((1 : ℝ) * Real.sqrt (((3 : ℕ) : ℝ) ^ 2 + ((4 : ℕ) : ℝ) ^ 2) / 2 * 2) :=
    rfl
  rw [hred]
  push_cast
  rw [h25]
  norm_num

/-- C7 (amended): whenever a WCS is supplied, `useRaDecCenter` and
`usePixelScale` are enabled and no explicit search radius is given, the
search radius is derived as pixel scale (the hint if given, else the WCS
pixel scale) times HALF the image diagonal `hypot(W, H)` times the
`searchRadiusScale` factor (whose default in the Python signature is 2.0). -/
theorem resolveGeometry_searchRadius (pixelScaleO : Wcs → ℝ)
    (pixelToSkyO : Wcs → ℝ × ℝ → ℚ × ℚ) (w : Wcs) (W H : ℕ)
    (radecCenter0 : Option (ℚ × ℚ)) (pixelScale0 : Option ℝ)
    (filterName0 : Option String) (srScale : ℝ) :
    searchRadiusOf (resolveGeometry pixelScaleO pixelToSkyO none (some w)
        (some (W, H)) radecCenter0 none pixelScale0 filterName0 true true srScale)
      = some (pixelScale0.getD (pixelScaleO w)
          * Real.sqrt ((W : ℝ) ^ 2 + (H : ℝ) ^ 2) / 2 * srScale) := by
  rcases pixelScale0 with _ | p <;> rcases radecCenter0 with _ | rc <;>
    simp [resolveGeometry, searchRadiusOf, effectiveWcs, resolveImageSize,
      resolveFilterName, Option.getD]

/-- C8: the trim step that `getReferenceSourcesForWcs` was meant to apply
(astrom.py:285-289 together with `_trimBadPoints`, astrom.py:471-485) keeps
a reference source exactly when it came from the input catalog and its
projected position lies within the image box grown by the margin:
`-margin <= x <= W+margin` and `-margin <= y <= H+margin`. -/
theorem trimBadPoints_mem_iff (cat : List RefSource) (W H margin : ℚ)
    (s : RefSource) :
    s ∈ trimBadPoints cat (trimBox W H margin)
      ↔ s ∈ cat ∧ (-margin ≤ s.xAstrom ∧ s.xAstrom ≤ W + margin
          ∧ -margin ≤ s.yAstrom ∧ s.yAstrom ≤ H + margin) := by
  simp [trimBadPoints, trimBox, Box2D.grow, Box2D.containsPt, List.mem_filter,
    and_assoc, zero_sub]

/-- C9 counterexample: a surviving match list in which the same reference
object (identifier 7, the `first` of both pairs) appears twice while the
matched sources are distinct: the duplicate-ID check of astrom.py:188-191
does not fire, because it collects `sm.second.getId()` — source
identifiers — not reference-object identifiers. -/
theorem duplicateIdWarning_ref_counterexample :
    duplicateIdWarning [⟨7, 1, 0⟩, ⟨7, 2, 0⟩] = false
    ∧ ¬ (([⟨7, 1, 0⟩, ⟨7, 2, 0⟩] : List Match).map Match.firstId).Nodup := by
  refine ⟨by decide, by decide⟩

/-- C9 (amended): the duplicate-identifier warning of `determineWcs2` is
emitted if and only if the identifiers of the matched sources (the `second`
element of each surviving match) contain a repeat; it is a log warning
only, leaving the result of the surrounding computation unchanged. -/
theorem duplicateIdWarning_iff (matchList : List Match) :
    duplicateIdWarning matchList = true
      ↔ ¬ (matchList.map Match.secondId).Nodup := by
  unfold duplicateIdWarning
  rw [bne_iff_ne]
  constructor
  · intro h hnd
    exact h (by rw [List.dedup_eq_self.mpr hnd, List.length_map])
  · intro h hlen
    apply h
    have hsub : (matchList.map Match.secondId).dedup.Sublist
        (matchList.map Match.secondId) := List.dedup_sublist _
    have hde : (matchList.map Match.secondId).dedup = matchList.map Match.secondId :=
      hsub.eq_of_length (by rw [List.length_map, hlen])
    rw [← hde]
    exact List.nodup_dedup _

end MeasAstrom
